import Mathlib

set_option maxRecDepth 100000

/-!
Verification development for the alert-notification dispatch engine
(Discord channel of the Grafana ngalert notifier family).

The repository provides the channel's test suite
(`pkg/services/ngalert/notifier/channels/discord_test.go`); the notifier
implementation itself (`discord.go`, the shared template engine and the link
builders) is not part of the available sources, so those components are
modelled from the specification, as marked on each definition.
-/

namespace Discord

/-- A label set or annotation set: an association list of name/value pairs.
Label names are unique within one alert. -/
abbrev LabelSet := List (String × String)

/-- Join a list of strings with a single-space separator. -/
def joinSpace : List String → String
  | [] => ""
  | [s] => s
  | s :: rest => s ++ " " ++ joinSpace rest

/-- Uppercase hexadecimal digit for a value below 16. -/
def hexDigit (n : Nat) : Char :=
  if n < 10 then Char.ofNat (48 + n) else Char.ofNat (55 + n)

/-- UTF-8 byte sequence of a character, as natural numbers. -/
def utf8Bytes (c : Char) : List Nat :=
  let n := c.toNat
  if n < 0x80 then [n]
  else if n < 0x800 then [0xC0 + n / 0x40, 0x80 + n % 0x40]
  else if n < 0x10000 then
    [0xE0 + n / 0x1000, 0x80 + (n / 0x40) % 0x40, 0x80 + n % 0x40]
  else
    [0xF0 + n / 0x40000, 0x80 + (n / 0x1000) % 0x40,
     0x80 + (n / 0x40) % 0x40, 0x80 + n % 0x40]

/-- Percent-encode one byte as `%XX` with uppercase hexadecimal digits. -/
def percentByte (b : Nat) : String :=
  String.mk ['%', hexDigit (b / 16 % 16), hexDigit (b % 16)]

/-- Whether a character stays unescaped in a URL query component:
ASCII alphanumerics and `-` `_` `.` `~`. -/
def isUnreservedQueryChar (c : Char) : Bool :=
  (97 ≤ c.toNat && c.toNat ≤ 122) || (65 ≤ c.toNat && c.toNat ≤ 90) ||
  (48 ≤ c.toNat && c.toNat ≤ 57) || c = '-' || c = '_' || c = '.' || c = '~'

/-- Modelled from the spec: URL-encoding of one query component (the silence
link's `matcher` values are "URL-encoded as `label=value`").  The encoder the
missing source uses is the standard query escaping: unreserved characters kept,
space encoded as `+`, every other character percent-encoded bytewise. -/
def queryEscape (s : String) : String :=
  String.join (s.toList.map fun c =>
    if isUnreservedQueryChar c then String.mk [c]
    else if c = ' ' then "+"
    else String.join ((utf8Bytes c).map percentByte))

/-- Lexicographic order on character lists, comparing code points. -/
def charListLe : List Char → List Char → Bool
  | [], _ => true
  | _ :: _, [] => false
  | a :: as, b :: bs =>
    if a.toNat < b.toNat then true
    else if b.toNat < a.toNat then false
    else charListLe as bs

/-- Lexicographic order on strings. -/
def strLe (a b : String) : Bool := charListLe a.data b.data

/-- Ordering of labels by name, the relation used to sort label sets. -/
def labelLe (a b : String × String) : Prop := strLe a.1 b.1 = true

/-- Strict ordering of labels: ordered by name and names differ. -/
def labelLt (a b : String × String) : Prop := labelLe a b ∧ a.1 ≠ b.1

instance : DecidableRel labelLe := fun a b =>
  inferInstanceAs (Decidable (strLe a.1 b.1 = true))

/-- Labels sorted lexicographically by label name. -/
def sortLabels (ls : LabelSet) : LabelSet :=
  List.insertionSort labelLe ls

/-- Look up a name in a label or annotation set. -/
def lookupLbl (name : String) (ls : LabelSet) : Option String :=
  (ls.find? (fun p => p.1 = name)).map Prod.snd

/-- Modelled from the spec: the silence link builder (missing from the
sources).  Base URL plus `/alerting/silence/new`, query parameter
`alertmanager=grafana`, then one `matcher` parameter per label, URL-encoded
as `label=value` and ordered lexicographically by label name. -/
def silenceLink (externalURL : String) (labels : LabelSet) : String :=
  externalURL ++ "/alerting/silence/new?alertmanager=grafana" ++
    String.join ((sortLabels labels).map fun p =>
      "&matcher=" ++ queryEscape (p.1 ++ "=" ++ p.2))

/-- Reserved annotation key carrying the dashboard identifier. -/
def dashboardUidKey : String := "__dashboardUid__"

/-- Reserved annotation key carrying the panel identifier. -/
def panelIdKey : String := "__panelId__"

/-- Reserved annotation key carrying the evaluated value string. -/
def valueStringKey : String := "__value_string__"

/-- Modelled from the spec: the dashboard link builder (missing from the
sources).  Base URL plus `/d/<dashboardUid>` when the reserved dashboard
annotation is present; absent otherwise. -/
def dashboardLink (externalURL : String) (anns : LabelSet) : Option String :=
  (lookupLbl dashboardUidKey anns).map fun uid => externalURL ++ "/d/" ++ uid

/-- Modelled from the spec: the panel link builder (missing from the
sources).  Dashboard link plus `?viewPanel=<panelId>` when both the dashboard
and the panel reserved annotations are present; absent otherwise. -/
def panelLink (externalURL : String) (anns : LabelSet) : Option String :=
  match lookupLbl dashboardUidKey anns, lookupLbl panelIdKey anns with
  | some uid, some pid => some (externalURL ++ "/d/" ++ uid ++ "?viewPanel=" ++ pid)
  | _, _ => none

/-- Modelled from the spec: the alert-list link builder (missing from the
sources).  Base URL plus the fixed path to the alert list view. -/
def alertListLink (externalURL : String) : String :=
  externalURL ++ "/alerting/list"

/-- An alert: label and annotation mappings, plus whether it has resolved
(stopped firing).  Reserved annotation keys carry structural metadata used
only for link derivation. -/
structure Alert where
  labels : LabelSet
  anns : LabelSet
  resolved : Bool

/-- The notification context supplied per Notify call: external base URL,
group key, group label set, and the build version shown in the footer. -/
structure NotificationContext where
  externalURL : String
  groupKey : String
  groupLabels : LabelSet
  buildVersion : String

/-- The alerts of a group that are currently firing. -/
def firingAlerts (as : List Alert) : List Alert :=
  as.filter fun a => !a.resolved

/-- The alerts of a group that have resolved. -/
def resolvedAlerts (as : List Alert) : List Alert :=
  as.filter fun a => a.resolved

/-- Labels common to every alert of the group, sorted by name. -/
def commonLabels : List Alert → LabelSet
  | [] => []
  | a :: rest =>
    rest.foldl (fun acc b => acc.filter fun p => b.labels.contains p)
      (sortLabels a.labels)

/-- The reserved annotation keys: structural metadata, never shown verbatim. -/
def reservedAnnKeys : List String :=
  [dashboardUidKey, panelIdKey, valueStringKey]

/-- Annotations of an alert with the reserved keys removed, sorted by name. -/
def visibleAnns (a : Alert) : LabelSet :=
  (sortLabels a.anns).filter fun p => !reservedAnnKeys.contains p.1

/-- The evaluated value shown on the `Value:` line, `[no value]` when the
reserved value annotation is absent. -/
def valueText (a : Alert) : String :=
  (lookupLbl valueStringKey a.anns).getD "[no value]"

/-- Modelled from the spec: the per-alert section of the default message
template (the template engine's pre-built default body, missing from the
sources).  Value line, sorted label list, sorted visible annotation list,
silence link, then dashboard and panel links when the reserved annotations
are present. -/
def alertText (externalURL : String) (a : Alert) : String :=
  "Value: " ++ valueText a ++ "\nLabels:\n" ++
  String.join ((sortLabels a.labels).map fun p =>
    " - " ++ p.1 ++ " = " ++ p.2 ++ "\n") ++
  "Annotations:\n" ++
  String.join ((visibleAnns a).map fun p =>
    " - " ++ p.1 ++ " = " ++ p.2 ++ "\n") ++
  "Silence: " ++ silenceLink externalURL a.labels ++ "\n" ++
  (match dashboardLink externalURL a.anns with
   | some l => "Dashboard: " ++ l ++ "\n"
   | none => "") ++
  (match panelLink externalURL a.anns with
   | some l => "Panel: " ++ l ++ "\n"
   | none => "")

/-- Modelled from the spec: the default message body (the template engine's
pre-built default, missing from the sources).  A `**Firing**` section listing
every firing alert, then a `**Resolved**` section listing every resolved
alert, each section present only when its partition is non-empty. -/
def defaultMessage (externalURL : String) (as : List Alert) : String :=
  (if (firingAlerts as).isEmpty then ""
   else "**Firing**\n" ++
     String.join ((firingAlerts as).map fun a =>
       "\n" ++ alertText externalURL a)) ++
  (if (resolvedAlerts as).isEmpty then ""
   else "**Resolved**\n" ++
     String.join ((resolvedAlerts as).map fun a =>
       "\n" ++ alertText externalURL a))

/-- Labels common to the group but not part of the grouping key's label set:
the values shown in parentheses in the embed title. -/
def extraLabels (ctx : NotificationContext) (as : List Alert) : LabelSet :=
  (commonLabels as).filter fun p => !(ctx.groupLabels.map Prod.fst).contains p.1

/-- Modelled from the spec: the embed title (the template engine's pre-built
default title, missing from the sources).  `[FIRING:n]` or `[RESOLVED:n]`
with `n` the size of the corresponding partition, then the group label
values, then the remaining common label values in parentheses when present. -/
def embedTitle (ctx : NotificationContext) (as : List Alert) : String :=
  (if (firingAlerts as).isEmpty then
    "[RESOLVED:" ++ toString (resolvedAlerts as).length ++ "] "
   else "[FIRING:" ++ toString (firingAlerts as).length ++ "] ") ++
  joinSpace ((sortLabels ctx.groupLabels).map Prod.snd) ++ " " ++
  (if (extraLabels ctx as).isEmpty then ""
   else "(" ++ joinSpace ((extraLabels ctx as).map Prod.snd) ++ ")")

/-- A custom message template, in compiled form: literal text, sequencing,
reference to a named template, and the alert-count helpers the spec's
scenarios use. -/
inductive Tmpl where
  | lit : String → Tmpl
  | seq : Tmpl → Tmpl → Tmpl
  | includeNamed : String → Tmpl
  | lenFiring : Tmpl
  | lenResolved : Tmpl
deriving DecidableEq

/-- Modelled from the spec: template execution (the template engine, missing
from the sources).  Executes a compiled template against the alert-group data
model; referencing an undefined named sub-template fails with a render error
naming the missing template.  The only pre-built named template is
`default.message`. -/
def execTmpl (ctx : NotificationContext) (as : List Alert) : Tmpl → Except String String
  | .lit s => .ok s
  | .seq a b => do
    let x ← execTmpl ctx as a
    let y ← execTmpl ctx as b
    pure (x ++ y)
  | .includeNamed n =>
    if n = "default.message" then .ok (defaultMessage ctx.externalURL as)
    else .error ("template \x22" ++ n ++ "\x22 not defined")
  | .lenFiring => .ok (toString (firingAlerts as).length)
  | .lenResolved => .ok (toString (resolvedAlerts as).length)

/-- The raw, loosely-typed settings document for the Discord channel: every
recognized key, each possibly absent.  A custom message is already in
compiled template form, since template compilation itself belongs to the
out-of-scope authoring tooling. -/
structure DiscordSettings where
  url : Option String
  message : Option Tmpl
  avatar_url : Option String
  use_discord_username : Option Bool

/-- The validated Discord channel configuration. -/
structure DiscordConfig where
  WebhookURL : String
  Message : Option Tmpl
  AvatarURL : String
  UseDiscordUsername : Bool
deriving DecidableEq

/-- Modelled from the spec: `NewDiscordConfig` (missing from the sources).
Parses the settings document; fails with a descriptive construction-time
error when the mandatory webhook url is missing, and applies defaults for
the optional fields (empty avatar URL, flag false, default message). -/
def NewDiscordConfig (s : DiscordSettings) : Except String DiscordConfig :=
  let url := s.url.getD ""
  if url = "" then
    .error "could not find webhook url property in settings"
  else
    .ok { WebhookURL := url, Message := s.message,
          AvatarURL := s.avatar_url.getD "",
          UseDiscordUsername := s.use_discord_username.getD false }

/-- The footer of the single embed element. -/
structure Footer where
  icon_url : String
  text : String
deriving DecidableEq

/-- One element of the payload's embeds array. -/
structure Embed where
  title : String
  url : String
  color : Nat
  footer : Footer
  type : String
deriving DecidableEq

/-- The Discord wire payload: content, the optional identity fields, and the
embeds array.  An optional field with value `none` is omitted entirely from
the serialized document. -/
structure DiscordPayload where
  content : String
  username : Option String
  avatar_url : Option String
  embeds : List Embed
deriving DecidableEq

/-- The fixed footer icon URL. -/
def footerIconURL : String := "https://grafana.com/assets/img/dp-logo.png"

/-- The fixed embed color. -/
def embedColor : Nat := 14037554

/-- Modelled from the spec: content rendering inside `Notify` (missing from
the sources).  The content is rendered through the custom template when one
is configured, else through the pre-built default message template. -/
def renderContent (cfg : DiscordConfig) (ctx : NotificationContext)
    (as : List Alert) : Except String String :=
  match cfg.Message with
  | some t => execTmpl ctx as t
  | none => .ok (defaultMessage ctx.externalURL as)

/-- Modelled from the spec: payload assembly from already-rendered content
(missing from the sources).  Suppresses the username field when the
use-platform-identity flag is set, else sets the default display name
`Grafana`; includes the avatar URL only when configured; and builds the
single embed with title, alert-list URL, fixed color, fixed footer icon and
the product/version footer text. -/
def assemblePayload (cfg : DiscordConfig) (ctx : NotificationContext)
    (as : List Alert) (content : String) : DiscordPayload :=
  { content := content
    username := if cfg.UseDiscordUsername then none else some "Grafana"
    avatar_url := if cfg.AvatarURL = "" then none else some cfg.AvatarURL
    embeds := [{ title := embedTitle ctx as
                 url := alertListLink ctx.externalURL
                 color := embedColor
                 footer := { icon_url := footerIconURL
                             text := "Grafana v" ++ ctx.buildVersion }
                 type := "rich" }] }

/-- Modelled from the spec: the render-and-assemble step of `Notify`
(missing from the sources).  A render error aborts payload assembly. -/
def buildPayload (cfg : DiscordConfig) (ctx : NotificationContext)
    (as : List Alert) : Except String DiscordPayload :=
  (renderContent cfg ctx as).map (assemblePayload cfg ctx as)

/-- A JSON string literal; the double quote is the only escaped character. -/
def jstr (s : String) : String :=
  "\x22" ++ String.join (s.toList.map fun c =>
    if c = '\x22' then "\\\x22" else String.mk [c]) ++ "\x22"

/-- Serialization of the payload: fields in a fixed order, optional fields
emitted only when present. -/
def serializePayload (p : DiscordPayload) : String :=
  "\x7b" ++ jstr "content" ++ ":" ++ jstr p.content ++
  (match p.username with
   | some u => "," ++ jstr "username" ++ ":" ++ jstr u
   | none => "") ++
  (match p.avatar_url with
   | some a => "," ++ jstr "avatar_url" ++ ":" ++ jstr a
   | none => "") ++
  "," ++ jstr "embeds" ++ ":[" ++
  joinComma (p.embeds.map fun e =>
    "\x7b" ++ jstr "title" ++ ":" ++ jstr e.title ++
    "," ++ jstr "url" ++ ":" ++ jstr e.url ++
    "," ++ jstr "color" ++ ":" ++ toString e.color ++
    "," ++ jstr "footer" ++ ":\x7b" ++ jstr "icon_url" ++ ":" ++
    jstr e.footer.icon_url ++ "," ++ jstr "text" ++ ":" ++
    jstr e.footer.text ++ "\x7d" ++
    "," ++ jstr "type" ++ ":" ++ jstr e.type ++ "\x7d") ++
  "]\x7d"
where
  joinComma : List String → String
    | [] => ""
    | [s] => s
    | s :: rest => s ++ "," ++ joinComma rest

/-- A request recorded by the outbound sender: target endpoint and body. -/
structure WebhookRequest where
  url : String
  body : String
deriving DecidableEq

/-- Modelled from the spec: `Notify` (missing from the sources), with the
outbound sender represented as an explicit log of delivered requests.  On a
render error it returns `(false, some err)` and delivers nothing; otherwise
it appends exactly one request carrying the serialized payload to the
configured webhook URL and returns `(true, none)`. -/
def Notify (cfg : DiscordConfig) (ctx : NotificationContext) (as : List Alert)
    (log : List WebhookRequest) :
    Bool × Option String × List WebhookRequest :=
  match buildPayload cfg ctx as with
  | .error e => (false, some e, log)
  | .ok p =>
    (true, none, log ++ [{ url := cfg.WebhookURL, body := serializePayload p }])

/-! Concrete scenario inputs, shared by several claims: the test suite's
default-configuration case with one firing alert. -/

/-- The one firing alert of the default-configuration scenario. -/
def alert1 : Alert :=
  { labels := [("alertname", "alert1"), ("lbl1", "val1")],
    anns := [("ann1", "annv1"), ("__dashboardUid__", "abcd"), ("__panelId__", "efgh")],
    resolved := false }

/-- The notification context of the scenarios: external URL
`http://localhost`, group key `alertname`, group labels `alertname=""`. -/
def ctx1 : NotificationContext :=
  { externalURL := "http://localhost", groupKey := "alertname",
    groupLabels := [("alertname", "")], buildVersion := "8.3.0" }

/-- The settings document of the default-configuration scenario:
only `url` is set. -/
def settings1 : DiscordSettings :=
  { url := some "http://localhost", message := none, avatar_url := none,
    use_discord_username := none }

/-- The configuration produced from `settings1`. -/
def cfg1 : DiscordConfig :=
  { WebhookURL := "http://localhost", Message := none, AvatarURL := "",
    UseDiscordUsername := false }

/-- The stated prefix of the scenario's rendered content. -/
def c1ContentStart : String :=
  "**Firing**\n\nValue: [no value]\nLabels:\n - alertname = alert1\n - lbl1 = val1\nAnnotations:\n - ann1 = annv1\n"

/-- The payload delivered in the default-configuration scenario. -/
def payload1 : DiscordPayload :=
  (buildPayload cfg1 ctx1 [alert1]).toOption.getD
    { content := "", username := none, avatar_url := none, embeds := [] }

/-- The default-configuration scenario with the use-platform-identity flag
set. -/
def cfgU : DiscordConfig :=
  { WebhookURL := "http://localhost", Message := none, AvatarURL := "",
    UseDiscordUsername := true }

/-- The payload delivered in the flag-set scenario. -/
def payloadU : DiscordPayload :=
  (buildPayload cfgU ctx1 [alert1]).toOption.getD
    { content := "", username := none, avatar_url := none, embeds := [] }

/-- The request delivered in the default-configuration scenario. -/
def req1 : WebhookRequest :=
  { url := cfg1.WebhookURL, body := serializePayload payload1 }

/-- C1: for the Discord notifier constructed from settings
`url = http://localhost` and invoked with exactly one firing alert having
labels `alertname=alert1, lbl1=val1` and annotation `ann1=annv1`, Notify
succeeds, the delivered payload's content begins with the stated
`**Firing**` block, the single embed's title is `[FIRING:1]  (val1)`, and
the embed's url ends with `/alerting/list`. -/
theorem C1_default_config_scenario :
    NewDiscordConfig settings1 = .ok cfg1 ∧
    (Notify cfg1 ctx1 [alert1] []).1 = true ∧
    ∃ p rest pre,
      buildPayload cfg1 ctx1 [alert1] = .ok p ∧
      p.content = c1ContentStart ++ rest ∧
      p.embeds.map Embed.title = ["[FIRING:1]  (val1)"] ∧
      p.embeds.map Embed.url = [pre ++ "/alerting/list"] := by
  refine ⟨rfl, rfl, ?_⟩
  refine ⟨_,
    "Silence: http://localhost/alerting/silence/new?alertmanager=grafana&matcher=alertname%3Dalert1&matcher=lbl1%3Dval1\nDashboard: http://localhost/d/abcd\nPanel: http://localhost/d/abcd?viewPanel=efgh\n",
    "http://localhost", rfl, ?_, ?_, ?_⟩ <;> decide

/-- C2: for every settings document that lacks the webhook url field,
`NewDiscordConfig` fails at construction time with the error
`could not find webhook url property in settings`. -/
theorem C2_missing_url_fails (s : DiscordSettings) (h : s.url = none) :
    NewDiscordConfig s = .error "could not find webhook url property in settings" := by
  unfold NewDiscordConfig
  rw [h]
  rfl

/-- Witness for C2 at the empty settings document. -/
theorem C2_missing_url_fails_witness :
    NewDiscordConfig
      { url := none, message := none, avatar_url := none,
        use_discord_username := none } =
      .error "could not find webhook url property in settings" :=
  C2_missing_url_fails _ rfl

/-- C3: when the configured custom message template references the undefined
named sub-template `invalid.template`, Notify returns `false` with a render
error naming the missing template, and the outbound sender is never invoked:
the delivery log is unchanged. -/
theorem C3_undefined_template (cfg : DiscordConfig) (ctx : NotificationContext)
    (as : List Alert) (log : List WebhookRequest)
    (h : cfg.Message = some (Tmpl.includeNamed "invalid.template")) :
    Notify cfg ctx as log =
      (false, some "template \x22invalid.template\x22 not defined", log) := by
  unfold Notify buildPayload renderContent
  rw [h]
  rfl

/-- Witness for C3 at a concrete configuration, context and alert list. -/
theorem C3_undefined_template_witness :
    Notify
      { WebhookURL := "http://localhost",
        Message := some (Tmpl.includeNamed "invalid.template"),
        AvatarURL := "", UseDiscordUsername := false }
      ctx1 [alert1] [] =
      (false, some "template \x22invalid.template\x22 not defined", []) :=
  C3_undefined_template _ _ _ _ rfl

/-- A successfully built payload is the assembly of some successfully
rendered content. -/
theorem buildPayload_ok_elim (cfg : DiscordConfig) (ctx : NotificationContext)
    (as : List Alert) (p : DiscordPayload)
    (h : buildPayload cfg ctx as = .ok p) :
    ∃ c, renderContent cfg ctx as = .ok c ∧ p = assemblePayload cfg ctx as c := by
  unfold buildPayload at h
  cases hr : renderContent cfg ctx as with
  | error e => rw [hr] at h; simp [Except.map] at h
  | ok c =>
    rw [hr] at h
    simp [Except.map] at h
    exact ⟨c, rfl, h.symm⟩

/-- C4 counterexample: in the default-configuration scenario neither the
username nor the avatar is explicitly configured, yet the delivered payload
carries the username field with the default display name `Grafana`, so it is
not omitted as the claim states. -/
theorem C4_counterexample_username_present :
    NewDiscordConfig settings1 = .ok cfg1 ∧
    buildPayload cfg1 ctx1 [alert1] = .ok payload1 ∧
    payload1.username ≠ none ∧ payload1.username = some "Grafana" := by
  refine ⟨rfl, rfl, ?_, ?_⟩ <;> decide

/-- C4 amended: the avatar field is omitted exactly when it is not
configured and appears verbatim when it is; the username field is not
omitted when unconfigured but carries the default display name `Grafana`,
unless the use-platform-identity flag suppresses it. -/
theorem C4_identity_fields (cfg : DiscordConfig) (ctx : NotificationContext)
    (as : List Alert) (p : DiscordPayload)
    (h : buildPayload cfg ctx as = .ok p) :
    (cfg.AvatarURL = "" → p.avatar_url = none) ∧
    (cfg.AvatarURL ≠ "" → p.avatar_url = some cfg.AvatarURL) ∧
    (cfg.UseDiscordUsername = false → p.username = some "Grafana") ∧
    (cfg.UseDiscordUsername = true → p.username = none) := by
  obtain ⟨c, _, rfl⟩ := buildPayload_ok_elim cfg ctx as p h
  refine ⟨fun ha => ?_, fun ha => ?_, fun hu => ?_, fun hu => ?_⟩
  · simp [assemblePayload, ha]
  · simp [assemblePayload, ha]
  · simp [assemblePayload, hu]
  · simp [assemblePayload, hu]

/-- Witness for C4's amended statement at the default-configuration
scenario and at a configured avatar. -/
theorem C4_identity_fields_witness :
    payload1.avatar_url = none ∧ payload1.username = some "Grafana" :=
  ⟨(C4_identity_fields cfg1 ctx1 [alert1] payload1 rfl).1 rfl,
   (C4_identity_fields cfg1 ctx1 [alert1] payload1 rfl).2.2.1 rfl⟩

/-- C5: setting the use-platform-identity flag suppresses the username
field entirely, and the rest of the payload is exactly what it would be
without the flag (which would set the default display name). -/
theorem C5_flag_suppresses_username (cfg : DiscordConfig)
    (ctx : NotificationContext) (as : List Alert) (p : DiscordPayload)
    (hflag : cfg.UseDiscordUsername = true)
    (h : buildPayload cfg ctx as = .ok p) :
    p.username = none ∧
    buildPayload { cfg with UseDiscordUsername := false } ctx as =
      .ok { p with username := some "Grafana" } := by
  obtain ⟨c, hc, rfl⟩ := buildPayload_ok_elim cfg ctx as p h
  have hr : renderContent { cfg with UseDiscordUsername := false } ctx as =
      renderContent cfg ctx as := rfl
  constructor
  · simp [assemblePayload, hflag]
  · unfold buildPayload
    rw [hr, hc]
    simp [Except.map, assemblePayload, hflag]

/-- Witness for C5 at the flag-set scenario. -/
theorem C5_flag_suppresses_username_witness :
    payloadU.username = none ∧
    buildPayload { cfgU with UseDiscordUsername := false } ctx1 [alert1] =
      .ok { payloadU with username := some "Grafana" } :=
  C5_flag_suppresses_username cfgU ctx1 [alert1] payloadU rfl rfl

/-- C6: the dashboard link is present exactly when the reserved dashboard
annotation is present, of the form `externalURL/d/<dashboardUid>`; the panel
link is present exactly when both reserved annotations are present, of the
form `externalURL/d/<dashboardUid>?viewPanel=<panelId>`. -/
theorem C6_dashboard_panel_links (externalURL : String) (anns : LabelSet) :
    (∀ uid, lookupLbl dashboardUidKey anns = some uid →
      dashboardLink externalURL anns = some (externalURL ++ "/d/" ++ uid)) ∧
    (lookupLbl dashboardUidKey anns = none →
      dashboardLink externalURL anns = none) ∧
    (∀ uid pid, lookupLbl dashboardUidKey anns = some uid →
      lookupLbl panelIdKey anns = some pid →
      panelLink externalURL anns =
        some (externalURL ++ "/d/" ++ uid ++ "?viewPanel=" ++ pid)) ∧
    (lookupLbl dashboardUidKey anns = none ∨ lookupLbl panelIdKey anns = none →
      panelLink externalURL anns = none) := by
  refine ⟨fun uid hu => ?_, fun hn => ?_, fun uid pid hu hp => ?_, fun hn => ?_⟩
  · unfold dashboardLink
    rw [hu]
    rfl
  · unfold dashboardLink
    rw [hn]
    rfl
  · unfold panelLink
    rw [hu, hp]
  · unfold panelLink
    rcases hn with hn | hn
    · rw [hn]
    · rw [hn]
      cases lookupLbl dashboardUidKey anns <;> rfl

/-- Witness for C6 on the scenario's annotations (both reserved keys
present) and on annotations without reserved keys. -/
theorem C6_dashboard_panel_links_witness :
    dashboardLink "http://localhost" alert1.anns =
      some "http://localhost/d/abcd" ∧
    panelLink "http://localhost" alert1.anns =
      some "http://localhost/d/abcd?viewPanel=efgh" ∧
    dashboardLink "http://localhost" [("ann1", "annv1")] = none ∧
    panelLink "http://localhost" [("ann1", "annv1")] = none :=
  ⟨(C6_dashboard_panel_links "http://localhost" alert1.anns).1 "abcd" rfl,
   (C6_dashboard_panel_links "http://localhost" alert1.anns).2.2.1
     "abcd" "efgh" rfl rfl,
   (C6_dashboard_panel_links "http://localhost" [("ann1", "annv1")]).2.1 rfl,
   (C6_dashboard_panel_links "http://localhost" [("ann1", "annv1")]).2.2.2
     (Or.inl rfl)⟩

/-- The character-list order is total. -/
theorem charListLe_total (as bs : List Char) :
    charListLe as bs = true ∨ charListLe bs as = true := by
  induction as generalizing bs with
  | nil => exact Or.inl rfl
  | cons a as ih =>
    cases bs with
    | nil => exact Or.inr rfl
    | cons b bs =>
      by_cases hab : a.toNat < b.toNat
      · exact Or.inl (by simp [charListLe, hab])
      · by_cases hba : b.toNat < a.toNat
        · exact Or.inr (by simp [charListLe, hba])
        · rcases ih bs with h | h
          · exact Or.inl (by simp [charListLe, hab, hba, h])
          · exact Or.inr (by simp [charListLe, hab, hba, h])

/-- The character-list order is transitive. -/
theorem charListLe_trans (as bs cs : List Char)
    (h1 : charListLe as bs = true) (h2 : charListLe bs cs = true) :
    charListLe as cs = true := by
  induction as generalizing bs cs with
  | nil => rfl
  | cons a as ih =>
    cases bs with
    | nil => simp [charListLe] at h1
    | cons b bs =>
      cases cs with
      | nil => simp [charListLe] at h2
      | cons c cs =>
        by_cases hab : a.toNat < b.toNat
        · by_cases hbc : b.toNat < c.toNat
          · simp [charListLe, Nat.lt_trans hab hbc]
          · by_cases hcb : c.toNat < b.toNat
            · simp [charListLe, hbc, hcb] at h2
            · have : a.toNat < c.toNat := by omega
              simp [charListLe, this]
        · by_cases hba : b.toNat < a.toNat
          · simp [charListLe, hab, hba] at h1
          · simp only [charListLe, if_neg hab, if_neg hba] at h1
            by_cases hbc : b.toNat < c.toNat
            · have : a.toNat < c.toNat := by omega
              simp [charListLe, this]
            · by_cases hcb : c.toNat < b.toNat
              · simp [charListLe, hbc, hcb] at h2
              · simp only [charListLe, if_neg hbc, if_neg hcb] at h2
                have hac : ¬ a.toNat < c.toNat := by omega
                have hca : ¬ c.toNat < a.toNat := by omega
                simp only [charListLe, if_neg hac, if_neg hca]
                exact ih bs cs h1 h2

/-- The character-list order is antisymmetric. -/
theorem charListLe_antisymm (as bs : List Char)
    (h1 : charListLe as bs = true) (h2 : charListLe bs as = true) :
    as = bs := by
  induction as generalizing bs with
  | nil =>
    cases bs with
    | nil => rfl
    | cons b bs => simp [charListLe] at h2
  | cons a as ih =>
    cases bs with
    | nil => simp [charListLe] at h1
    | cons b bs =>
      by_cases hab : a.toNat < b.toNat
      · have hba : ¬ b.toNat < a.toNat := by omega
        simp [charListLe, hab, hba] at h2
      · by_cases hba : b.toNat < a.toNat
        · simp [charListLe, hab, hba] at h1
        · have hnn : a.toNat = b.toNat := by omega
          have hc : a = b := Char.eq_of_val_eq (UInt32.ext hnn)
          subst hc
          simp only [charListLe, if_neg hab, if_neg hba] at h1 h2
          rw [ih bs h1 h2]

/-- The string order is antisymmetric. -/
theorem strLe_antisymm (a b : String) (h1 : strLe a b = true)
    (h2 : strLe b a = true) : a = b := by
  have h := charListLe_antisymm a.data b.data h1 h2
  cases a
  cases b
  exact congrArg String.mk h

/-- Sorting by label name is invariant under permutation of the input when
label names are pairwise distinct. -/
theorem sortLabels_perm_invariant (l l' : LabelSet) (hp : l.Perm l')
    (hn : (l.map Prod.fst).Nodup) : sortLabels l = sortLabels l' := by
  haveI : IsTotal (String × String) labelLe :=
    ⟨fun a b => charListLe_total a.1.data b.1.data⟩
  haveI : IsTrans (String × String) labelLe :=
    ⟨fun a b c h1 h2 => charListLe_trans a.1.data b.1.data c.1.data h1 h2⟩
  haveI : IsAntisymm (String × String) labelLt :=
    ⟨fun a b h1 h2 => absurd (strLe_antisymm a.1 b.1 h1.1 h2.1) h1.2⟩
  have hs1 : List.Sorted labelLe (sortLabels l) :=
    List.sorted_insertionSort labelLe l
  have hs2 : List.Sorted labelLe (sortLabels l') :=
    List.sorted_insertionSort labelLe l'
  have hp1 : (sortLabels l).Perm l := List.perm_insertionSort labelLe l
  have hp2 : (sortLabels l').Perm l' := List.perm_insertionSort labelLe l'
  have hperm : (sortLabels l).Perm (sortLabels l') :=
    hp1.trans (hp.trans hp2.symm)
  have hn1 : ((sortLabels l).map Prod.fst).Nodup :=
    ((hp1.map Prod.fst).nodup_iff).mpr hn
  have hn2 : ((sortLabels l').map Prod.fst).Nodup :=
    ((hperm.map Prod.fst).nodup_iff).mp hn1
  have hne1 : List.Pairwise (fun a b : String × String => a.1 ≠ b.1)
      (sortLabels l) := List.pairwise_map.mp hn1
  have hne2 : List.Pairwise (fun a b : String × String => a.1 ≠ b.1)
      (sortLabels l') := List.pairwise_map.mp hn2
  have hlt1 : List.Sorted labelLt (sortLabels l) :=
    (hs1.and hne1).imp fun h => ⟨h.1, h.2⟩
  have hlt2 : List.Sorted labelLt (sortLabels l') :=
    (hs2.and hne2).imp fun h => ⟨h.1, h.2⟩
  exact List.eq_of_perm_of_sorted hperm hlt1 hlt2

/-- C7: the silence link is the external base URL, the path
`/alerting/silence/new`, the query parameter `alertmanager=grafana`, then
one `matcher` parameter per label, percent-encoded as `label=value` and
ordered by label name; the output does not depend on the input label
order. -/
theorem C7_silence_link (externalURL : String) (labels labels' : LabelSet)
    (hperm : labels.Perm labels')
    (hnodup : (labels.map Prod.fst).Nodup) :
    silenceLink externalURL labels = silenceLink externalURL labels' ∧
    silenceLink externalURL labels =
      externalURL ++ "/alerting/silence/new?alertmanager=grafana" ++
        String.join ((sortLabels labels).map fun p =>
          "&matcher=" ++ queryEscape (p.1 ++ "=" ++ p.2)) := by
  constructor
  · unfold silenceLink
    rw [sortLabels_perm_invariant labels labels' hperm hnodup]
  · rfl

/-- Witness for C7: the scenario's labels in two different orders produce
the identical percent-encoded, name-ordered silence link. -/
theorem C7_silence_link_witness :
    silenceLink "http://localhost" [("lbl1", "val1"), ("alertname", "alert1")] =
      silenceLink "http://localhost"
        [("alertname", "alert1"), ("lbl1", "val1")] ∧
    silenceLink "http://localhost" [("lbl1", "val1"), ("alertname", "alert1")] =
      "http://localhost/alerting/silence/new?alertmanager=grafana&matcher=alertname%3Dalert1&matcher=lbl1%3Dval1" :=
  ⟨(C7_silence_link "http://localhost"
      [("lbl1", "val1"), ("alertname", "alert1")]
      [("alertname", "alert1"), ("lbl1", "val1")]
      (by decide) (by decide)).1,
   by decide⟩

/-- Firing and resolved alerts are an exact partition of the group. -/
theorem firing_resolved_partition (as : List Alert) :
    (firingAlerts as).length + (resolvedAlerts as).length = as.length := by
  induction as with
  | nil => rfl
  | cons a t ih =>
    unfold firingAlerts resolvedAlerts at ih ⊢
    cases hr : a.resolved <;> simp [List.filter_cons, hr] <;> omega

/-- C8: the payload has a single embed whose title is `[FIRING:n]` or
`[RESOLVED:n]` with `n` the size of the corresponding partition of the
group (the two partitions are exact), followed by the group label values
and, in parentheses when present, the values of the common labels that are
not part of the grouping key's label set. -/
theorem C8_embed_title (cfg : DiscordConfig) (ctx : NotificationContext)
    (as : List Alert) (p : DiscordPayload)
    (h : buildPayload cfg ctx as = .ok p) :
    (firingAlerts as).length + (resolvedAlerts as).length = as.length ∧
    p.embeds.map Embed.title =
      [(if (firingAlerts as).isEmpty then
          "[RESOLVED:" ++ toString (resolvedAlerts as).length ++ "] "
        else "[FIRING:" ++ toString (firingAlerts as).length ++ "] ") ++
        joinSpace ((sortLabels ctx.groupLabels).map Prod.snd) ++ " " ++
        (if (extraLabels ctx as).isEmpty then ""
         else "(" ++ joinSpace ((extraLabels ctx as).map Prod.snd) ++ ")")] ∧
    ∀ q ∈ extraLabels ctx as,
      ¬ (ctx.groupLabels.map Prod.fst).contains q.1 = true := by
  obtain ⟨c, _, rfl⟩ := buildPayload_ok_elim cfg ctx as p h
  refine ⟨firing_resolved_partition as, rfl, fun q hq => ?_⟩
  unfold extraLabels at hq
  have hf := List.of_mem_filter hq
  simpa using hf

/-- Witness for C8 at the default-configuration scenario: one firing alert,
group labels `alertname=""`, extra common label value `val1`. -/
theorem C8_embed_title_witness :
    payload1.embeds.map Embed.title = ["[FIRING:1]  (val1)"] :=
  ((C8_embed_title cfg1 ctx1 [alert1] payload1 rfl).2.1).trans (by decide)

/-- C9: rendering is deterministic. Two Notify invocations with identical
configuration, context and alert group deliver byte-identical payload
bodies to the sender. -/
theorem C9_deterministic (cfg : DiscordConfig) (ctx : NotificationContext)
    (as : List Alert) (r1 r2 : WebhookRequest)
    (h : (Notify cfg ctx as (Notify cfg ctx as []).2.2).2.2 = [r1, r2]) :
    r1.body = r2.body := by
  unfold Notify at h
  cases hb : buildPayload cfg ctx as with
  | error e =>
    rw [hb] at h
    simp at h
  | ok p =>
    rw [hb] at h
    simp at h
    rw [← h.1, ← h.2]

/-- Witness for C9: the default-configuration scenario run twice delivers
the same request body both times. -/
theorem C9_deterministic_witness :
    (Notify cfg1 ctx1 [alert1]
        (Notify cfg1 ctx1 [alert1] []).2.2).2.2 = [req1, req1] ∧
    req1.body = req1.body :=
  ⟨by decide,
   C9_deterministic cfg1 ctx1 [alert1] req1 req1 (by decide)⟩

/-- C10: every successful Notify delivers a payload whose embeds array has
exactly one element, with color 14037554, type `rich`, the fixed footer
icon, and footer text `Grafana v` followed by the build version. -/
theorem C10_embed_constants (cfg : DiscordConfig) (ctx : NotificationContext)
    (as : List Alert) (log : List WebhookRequest)
    (h : (Notify cfg ctx as log).1 = true) :
    (buildPayload cfg ctx as).map (fun p => p.embeds.map fun e =>
        (e.color, e.type, e.footer.icon_url, e.footer.text)) =
      .ok [(14037554, "rich", "https://grafana.com/assets/img/dp-logo.png",
            "Grafana v" ++ ctx.buildVersion)] := by
  unfold Notify at h
  cases hb : buildPayload cfg ctx as with
  | error e =>
    rw [hb] at h
    simp at h
  | ok p =>
    obtain ⟨c, _, rfl⟩ := buildPayload_ok_elim cfg ctx as p hb
    rfl

/-- Witness for C10 at the default-configuration scenario. -/
theorem C10_embed_constants_witness :
    (buildPayload cfg1 ctx1 [alert1]).map (fun p => p.embeds.map fun e =>
        (e.color, e.type, e.footer.icon_url, e.footer.text)) =
      .ok [(14037554, "rich", "https://grafana.com/assets/img/dp-logo.png",
            "Grafana v8.3.0")] :=
  C10_embed_constants cfg1 ctx1 [alert1] [] rfl

end Discord
